import Mathlib

/-!
Shallow embedding of the go-tls uprobe attachment coordinator
(package usm, file gotls.go) of the datadog-agent repository, together
with theorems about its attach/detach protocol, its reconciliation
sweep, its shutdown sequence and the binary-identity registry contract.

External collaborators (the eBPF manager, the ELF inspector, procfs,
the process monitor) are modelled as oracles supplied through explicit
environment records; the control flow of the embedded functions follows
the Go source line by line.
-/

/-- PathIdentifier is the binary identity used by the registry: the
device number and inode of the executable file
(utils.PathIdentifier). -/
structure PathIdentifier where
  dev : Nat
  inode : Nat
deriving DecidableEq, Repr

/-- TlsBinaryId is the eBPF lookup-table key type (gotls.TlsBinaryId):
device major number, device minor number, inode. -/
structure TlsBinaryId where
  idMajor : Nat
  idMinor : Nat
  ino : Nat
deriving DecidableEq, Repr

/-- Major component of a Linux device number, as computed by
unix.Major from golang.org/x/sys. -/
def unixMajor (dev : Nat) : Nat :=
  ((dev &&& 0x00000000000fff00) >>> 8) ||| ((dev &&& 0xfffff00000000000) >>> 32)

/-- Minor component of a Linux device number, as computed by
unix.Minor from golang.org/x/sys. -/
def unixMinor (dev : Nat) : Nat :=
  (dev &&& 0x00000000000000ff) ||| ((dev &&& 0x00000ffffff00000) >>> 12)

/-- Key construction performed by addInspectionResultToMap before the
offsetsDataMap.Put call. -/
def addInspectionKey (binID : PathIdentifier) : TlsBinaryId :=
  { idMajor := unixMajor binID.dev
    idMinor := unixMinor binID.dev
    ino := binID.inode }

/-- Key construction performed by removeInspectionResultFromMap before
the offsetsDataMap.Delete call. -/
def removeInspectionKey (binID : PathIdentifier) : TlsBinaryId :=
  { idMajor := unixMajor binID.dev
    idMinor := unixMinor binID.dev
    ino := binID.inode }

/-- Set of keys currently present in the offsets_data eBPF map; the
map value (the analysis blob) plays no role in the claims, so the map
is modelled by its key set. -/
abbrev OffsetsMap := List TlsBinaryId

/-- Map update performed by a successful offsetsDataMap.Put: upsert of
the key. -/
def mapPut (m : OffsetsMap) (k : TlsBinaryId) : OffsetsMap :=
  if k ∈ m then m else k :: m

/-- Map update performed by offsetsDataMap.Delete: removal of the key
(deleting an absent key is an error that the caller only logs). -/
def mapDelete (m : OffsetsMap) (k : TlsBinaryId) : OffsetsMap :=
  m.filter (fun x => x ≠ k)

/-- Names of the five go-tls uprobe eBPF programs (constants of
gotls.go). -/
def connReadProbe : String := "uprobe__crypto_tls_Conn_Read"

/-- Return-probe counterpart of connReadProbe. -/
def connReadRetProbe : String := "uprobe__crypto_tls_Conn_Read__return"

/-- Entry probe for the write function. -/
def connWriteProbe : String := "uprobe__crypto_tls_Conn_Write"

/-- Return-probe counterpart of connWriteProbe. -/
def connWriteRetProbe : String := "uprobe__crypto_tls_Conn_Write__return"

/-- Entry probe for the close function. -/
def connCloseProbe : String := "uprobe__crypto_tls_Conn_Close"

/-- Symbol names of the instrumented functions
(bininspect.ReadGoTLSFunc and friends). -/
def ReadGoTLSFunc : String := "crypto/tls.(*Conn).Read"

/-- Symbol name of the write function. -/
def WriteGoTLSFunc : String := "crypto/tls.(*Conn).Write"

/-- Symbol name of the close function. -/
def CloseGoTLSFunc : String := "crypto/tls.(*Conn).Close"

/-- Entry of the functionToProbes table: the entry-probe and
return-probe eBPF program names for one instrumented function; the
empty string stands for the absent Go struct field value. -/
structure UprobesInfo where
  functionInfo : String
  returnInfo : String
deriving DecidableEq, Repr

/-- Table functionToProbes of gotls.go as an ordered association
list. In Go it is a map and its iteration order is unspecified; every
property proved below is independent of the order chosen here. -/
def functionToProbes : List (String × UprobesInfo) :=
  [(ReadGoTLSFunc, { functionInfo := connReadProbe, returnInfo := connReadRetProbe }),
   (WriteGoTLSFunc, { functionInfo := connWriteProbe, returnInfo := connWriteRetProbe }),
   (CloseGoTLSFunc, { functionInfo := connCloseProbe, returnInfo := "" })]

/-- Per-function analysis configuration (bininspect
FunctionConfiguration); the parameter lookup function is external and
irrelevant to the claims. -/
structure FunctionConfiguration where
  includeReturnLocations : Bool
deriving DecidableEq, Repr

/-- Table functionsConfig of gotls.go. -/
def functionsConfig : List (String × FunctionConfiguration) :=
  [(WriteGoTLSFunc, { includeReturnLocations := true }),
   (ReadGoTLSFunc, { includeReturnLocations := true }),
   (CloseGoTLSFunc, { includeReturnLocations := false })]

/-- Go map read functionsConfig[function]: zero value when the key is
absent. -/
def configFor (function : String) : FunctionConfiguration :=
  (functionsConfig.lookup function).getD { includeReturnLocations := false }

/-- Per-function analysis output (bininspect FunctionMetadata): entry
offset and return offsets. -/
structure FuncData where
  entryLocation : Nat
  returnLocations : List Nat
deriving DecidableEq, Repr

/-- Result of bininspect.InspectNewProcessBinary, restricted to the
fields the attach path reads. -/
structure InspectResult where
  functions : List (String × FuncData)
deriving DecidableEq, Repr

/-- Go map read result.Functions[function]: zero value when the key is
absent. -/
def InspectResult.funcData (r : InspectResult) (function : String) : FuncData :=
  (r.functions.lookup function).getD { entryLocation := 0, returnLocations := [] }

/-- Identification pair of one uprobe (manager
ProbeIdentificationPair). -/
structure ProbeIdentificationPair where
  ebpfFuncName : String
  uid : String
deriving DecidableEq, Repr

/-- One uprobe as handed to manager.AddHook. -/
structure Probe where
  probeId : ProbeIdentificationPair
  binaryPath : String
  uprobeOffset : Nat
deriving DecidableEq, Repr

/-- Installed-hook state of the external eBPF manager: the list of
hooks added so far, in installation order. -/
abbrev MgrState := List Probe

/-- Oracle for the external hook installer and remover: which AddHook
and DetachHook calls succeed. -/
structure HookEnv where
  addHookOk : Probe → Bool
  detachOk : ProbeIdentificationPair → Bool

/-- Behaviour of manager.AddHook: on success the hook is appended to
the installed set, on failure the state is unchanged and an error is
returned. -/
def addHook (env : HookEnv) (mgr : MgrState) (p : Probe) : Except String MgrState :=
  if env.addHookOk p then .ok (mgr ++ [p]) else .error "could not add hook"

/-- Modelled from the spec: getUID (defined in the usm utils package,
outside the sampled sources) derives the unique hook identifier from
the binary identity handed to InstallHook. -/
def getUID (binID : PathIdentifier) : String :=
  toString binID.dev ++ ":" ++ toString binID.inode

/-- Modelled from the spec: makeReturnUID (defined outside the sampled
sources) makes each return probe unique by appending the index of the
return location to the binary UID. -/
def makeReturnUID (uid : String) (i : Nat) : String :=
  uid ++ "_" ++ toString i

/-- Inner loop of attachHooks over the enumerated return locations of
one function: installs one return probe per location, stopping at the
first AddHook failure. Returns the manager state reached and either
the accumulated probe identifiers or the error. -/
def attachReturnProbes (env : HookEnv) (retInfo : String) (uid : String)
    (binPath : String) :
    List (Nat × Nat) → MgrState → List ProbeIdentificationPair →
    MgrState × Except String (List ProbeIdentificationPair)
  | [], mgr, acc => (mgr, .ok acc)
  | (i, offset) :: rest, mgr, acc =>
    let returnProbeID : ProbeIdentificationPair :=
      { ebpfFuncName := retInfo, uid := makeReturnUID uid i }
    let newProbe : Probe :=
      { probeId := returnProbeID, binaryPath := binPath, uprobeOffset := offset }
    match addHook env mgr newProbe with
    | .error e => (mgr, .error e)
    | .ok mgr1 => attachReturnProbes env retInfo uid binPath rest mgr1 (acc ++ [returnProbeID])

/-- Loop of attachHooks over the functionToProbes entries: for each
function, first the return probes (when configured), then the entry
probe. -/
def attachHooksLoop (env : HookEnv) (result : InspectResult) (binPath : String)
    (uid : String) :
    List (String × UprobesInfo) → MgrState → List ProbeIdentificationPair →
    MgrState × Except String (List ProbeIdentificationPair)
  | [], mgr, acc => (mgr, .ok acc)
  | (function, uprobes) :: rest, mgr, acc =>
    if (configFor function).includeReturnLocations then
      if uprobes.returnInfo = "" then
        (mgr, .error "function configured to include return locations but no return uprobes found in config")
      else
        match attachReturnProbes env uprobes.returnInfo uid binPath
            (result.funcData function).returnLocations.enum mgr acc with
        | (mgr1, .error e) => (mgr1, .error e)
        | (mgr1, .ok acc1) =>
          if uprobes.functionInfo ≠ "" then
            let probeID : ProbeIdentificationPair :=
              { ebpfFuncName := uprobes.functionInfo, uid := uid }
            let newProbe : Probe :=
              { probeId := probeID, binaryPath := binPath
                uprobeOffset := (result.funcData function).entryLocation }
            match addHook env mgr1 newProbe with
            | .error e => (mgr1, .error e)
            | .ok mgr2 => attachHooksLoop env result binPath uid rest mgr2 (acc1 ++ [probeID])
          else
            attachHooksLoop env result binPath uid rest mgr1 acc1
    else
      if uprobes.functionInfo ≠ "" then
        let probeID : ProbeIdentificationPair :=
          { ebpfFuncName := uprobes.functionInfo, uid := uid }
        let newProbe : Probe :=
          { probeId := probeID, binaryPath := binPath
            uprobeOffset := (result.funcData function).entryLocation }
        match addHook env mgr newProbe with
        | .error e => (mgr, .error e)
        | .ok mgr1 => attachHooksLoop env result binPath uid rest mgr1 (acc ++ [probeID])
      else
        attachHooksLoop env result binPath uid rest mgr acc

/-- Function attachHooks of gotls.go: installs one hook per configured
(function, offset) pair of the inspection result and returns the probe
identifiers; on an individual AddHook failure it returns the error
without detaching the hooks already added. -/
def attachHooks (env : HookEnv) (result : InspectResult) (binPath : String)
    (binID : PathIdentifier) (mgr : MgrState) :
    MgrState × Except String (List ProbeIdentificationPair) :=
  attachHooksLoop env result binPath (getUID binID) functionToProbes mgr []

/-- Error of bininspect.InspectNewProcessBinary, with the
distinguishable no-symbols case (safeelf.ErrNoSymbols). -/
inductive InspectError
  | noSymbols
  | other (msg : String)
deriving DecidableEq, Repr

/-- Error returned by the registration callback of registerCBCreator,
one constructor per return site. -/
inductive RegisterError
  | openFailed
  | elfParseFailed
  | inspectFailed (e : InspectError)
  | addToMapFailed
  | attachFailed (msg : String)
deriving DecidableEq, Repr

/-- State threaded through the coordinator callbacks: the offsets_data
map keys, the installed hooks of the eBPF manager, the shared probeIDs
slice captured by the two callbacks, and the two telemetry
counters. -/
structure GoTLSState where
  offsetsMap : OffsetsMap
  mgr : MgrState
  probeIDs : List ProbeIdentificationPair
  binNoSymbols : Nat
  binAnalysisAdds : Nat
deriving DecidableEq, Repr

/-- Oracle for the external steps of the registration callback:
whether os.Open and safeelf.NewFile succeed, the inspection outcome,
whether the conversion plus offsetsDataMap.Put succeed, and the hook
installer oracle. -/
structure RegisterEnv where
  openOk : Bool
  elfOk : Bool
  inspect : Except InspectError InspectResult
  putOk : Bool
  hookEnv : HookEnv

/-- FilePath record handed to the registry callbacks (utils.FilePath):
host path and path identifier. -/
structure HookedFilePath where
  hostPath : String
  id : PathIdentifier
deriving DecidableEq, Repr

/-- Body of addInspectionResultToMap: converts the inspection result
and writes it to the offsets_data map under the (major, minor, inode)
key; conversion or Put failure leaves the map unchanged and returns an
error. -/
def addInspectionResultToMap (putOk : Bool) (m : OffsetsMap) (binID : PathIdentifier) :
    Except RegisterError OffsetsMap :=
  if putOk then .ok (mapPut m (addInspectionKey binID)) else .error .addToMapFailed

/-- Body of removeInspectionResultFromMap: deletes the (major, minor,
inode) key from the offsets_data map; a Delete error is only
logged. -/
def removeInspectionResultFromMap (m : OffsetsMap) (binID : PathIdentifier) : OffsetsMap :=
  mapDelete m (removeInspectionKey binID)

/-- Registration callback produced by registerCBCreator: open and
parse the binary, inspect it (counting no-symbols failures), write the
result to the offsets_data map, then attach the hooks; if attaching
fails the map entry is removed again and the error is returned. On
success the shared probeIDs slice receives the installed probe
identifiers and the analysis-time counter is bumped. -/
def registerCB (env : RegisterEnv) (filePath : HookedFilePath) (st : GoTLSState) :
    GoTLSState × Except RegisterError Unit :=
  if ¬ env.openOk then (st, .error .openFailed)
  else if ¬ env.elfOk then (st, .error .elfParseFailed)
  else
    match env.inspect with
    | .error e =>
      ({ st with binNoSymbols := st.binNoSymbols + (if e = .noSymbols then 1 else 0) },
       .error (.inspectFailed e))
    | .ok inspectionResult =>
      match addInspectionResultToMap env.putOk st.offsetsMap filePath.id with
      | .error e => (st, .error e)
      | .ok m1 =>
        match attachHooks env.hookEnv inspectionResult filePath.hostPath filePath.id st.mgr with
        | (mgr1, .error e) =>
          ({ st with offsetsMap := removeInspectionResultFromMap m1 filePath.id, mgr := mgr1 },
           .error (.attachFailed e))
        | (mgr1, .ok pIDs) =>
          ({ st with
              offsetsMap := m1
              mgr := mgr1
              probeIDs := pIDs
              binAnalysisAdds := st.binAnalysisAdds + 1 },
           .ok ())

/-- Observable step of the teardown performed by the unregistration
callback, in execution order. -/
inductive TeardownAction
  | removeMapEntry (k : TlsBinaryId)
  | detachHook (p : ProbeIdentificationPair) (ok : Bool)
deriving DecidableEq, Repr

/-- Sequential DetachHook calls of the unregistration callback: a
failed call is logged and leaves the hook installed, the remaining
calls still run. -/
def detachAll (env : HookEnv) : List ProbeIdentificationPair → MgrState → MgrState
  | [], mgr => mgr
  | p :: rest, mgr =>
    if env.detachOk p then
      detachAll env rest (mgr.filter (fun pr => pr.probeId ≠ p))
    else
      detachAll env rest mgr

/-- Unregistration callback produced by unregisterCBCreator: when
probe identifiers were stored, it removes the offsets_data entry
first, then detaches every stored hook, logging individual failures;
it always returns success. Besides the new state it returns the trace
of teardown actions in execution order. -/
def unregisterCB (env : HookEnv) (path : HookedFilePath) (st : GoTLSState) :
    GoTLSState × List TeardownAction × Except String Unit :=
  if st.probeIDs = [] then (st, [], .ok ())
  else
    ({ st with
        offsetsMap := removeInspectionResultFromMap st.offsetsMap path.id
        mgr := detachAll env st.probeIDs st.mgr },
     .removeMapEntry (removeInspectionKey path.id) ::
       st.probeIDs.map (fun p => .detachHook p (env.detachOk p)),
     .ok ())

/-- Error of a registry.Register call as observed by AttachPID;
alreadyRegistered stands for utils.ErrPathIsAlreadyRegistered
(possibly wrapped, matched through errors.Is). -/
inductive RegistryError
  | alreadyRegistered
  | other (msg : String)
deriving DecidableEq, Repr

/-- Environment of AttachPID: the exclusion configuration, the agent
own PID, the procfs readlink oracle and the external collaborators it
consults. The regexp engine and the registry live outside this file
and are modelled by their observable outcomes. -/
structure AttachEnv where
  goTLSExcludeSelf : Bool
  selfPid : Nat
  procRoot : String
  readlink : String → Except String String
  isInternalProcess : String → Bool
  register : String → Nat → Except RegistryError Unit

/-- Decidable equality of Except values, used to compare observable
call outcomes. -/
instance exceptDecidableEq {ε α : Type} [DecidableEq ε] [DecidableEq α] :
    DecidableEq (Except ε α)
  | .error e, .error f =>
    if h : e = f then .isTrue (congrArg Except.error h)
    else .isFalse (fun hh => h (Except.error.inj hh))
  | .error _, .ok _ => .isFalse (fun hh => Except.noConfusion hh)
  | .ok _, .error _ => .isFalse (fun hh => Except.noConfusion hh)
  | .ok a, .ok b =>
    if h : a = b then .isTrue (congrArg Except.ok h)
    else .isFalse (fun hh => h (Except.ok.inj hh))

/-- Outcome of AttachPID, one constructor per return site; only the
last one reaches registry.Register. -/
inductive AttachOutcome
  | selfExcluded
  | readlinkFailed (msg : String)
  | internalRejected
  | registerCalled (r : Except RegistryError Unit)
deriving DecidableEq, Repr

/-- Error value returned by AttachPID, as compared by callers. -/
inductive AttachError
  | notEnabled
  | selfExcluded
  | readlinkErr (msg : String)
  | internalRejected
  | registerErr (e : RegistryError)
deriving DecidableEq, Repr

/-- Path <procRoot>/<pid>/exe built by AttachPID
(filepath.Join with strconv.FormatUint). -/
def exePath (procRoot : String) (pid : Nat) : String :=
  procRoot ++ "/" ++ toString pid ++ "/exe"

/-- Method AttachPID of goTLSProgram: self exclusion, executable path
resolution, internal-process exclusion, then registry.Register with
the two callbacks. -/
def AttachPID (env : AttachEnv) (pid : Nat) : AttachOutcome :=
  if env.goTLSExcludeSelf ∧ pid = env.selfPid then .selfExcluded
  else
    match env.readlink (exePath env.procRoot pid) with
    | .error msg => .readlinkFailed msg
    | .ok binPath =>
      if env.isInternalProcess binPath then .internalRejected
      else .registerCalled (env.register binPath pid)

/-- True when the AttachPID outcome reached registry.Register. -/
def AttachOutcome.callsRegister : AttachOutcome → Bool
  | .registerCalled _ => true
  | _ => false

/-- Error value of an AttachPID outcome; none is a nil return. -/
def AttachOutcome.toError : AttachOutcome → Option AttachError
  | .selfExcluded => some .selfExcluded
  | .readlinkFailed msg => some (.readlinkErr msg)
  | .internalRejected => some .internalRejected
  | .registerCalled (.error e) => some (.registerErr e)
  | .registerCalled (.ok _) => none

/-- Function GoTLSAttachPID: fails when the protocol instance is
absent; otherwise calls AttachPID and converts the
already-registered condition into a nil return. -/
def GoTLSAttachPID (instancePresent : Bool) (env : AttachEnv) (pid : Nat) :
    Option AttachError :=
  if ¬ instancePresent then some .notEnabled
  else
    match (AttachPID env pid).toError with
    | some (.registerErr .alreadyRegistered) => none
    | r => r

/-- Result of one reconciliation sweep: the PIDs passed to AttachPID
in enumeration order and the PIDs handed to handleProcessExit (hence
DetachPID) after the enumeration. -/
structure SyncResult where
  attaches : List Nat
  detaches : Finset Nat

/-- Enumeration loop of sync over the live PIDs: a PID present among
the deletion candidates is only removed from them, any other live PID
is passed to AttachPID. -/
def syncLoop : List Nat → Finset Nat → Finset Nat × List Nat
  | [], candidates => (candidates, [])
  | p :: rest, candidates =>
    if p ∈ candidates then syncLoop rest (candidates.erase p)
    else
      let r := syncLoop rest candidates
      (r.1, p :: r.2)

/-- Method sync of goTLSProgram: snapshot the registered PIDs as
deletion candidates, walk every live process, then detach every
candidate that was not seen alive. -/
def sync (registered : Finset Nat) (livePids : List Nat) : SyncResult :=
  let r := syncLoop livePids registered
  { attaches := r.2, detaches := r.1 }

/-- Observable action of the shutdown protocol of goTLSProgram, in
the order the source performs it: Stop closes the done channel, the
PreStart goroutine finishes its current loop iteration, runs the
deferred cleanup sequence (ticker stop, unsubscription from exec and
exit notifications, process-monitor stop, Registry.Clear) and marks
the wait group done; finally wg.Wait in Stop returns. -/
inductive ShutdownAction
  | signalDone
  | runSync
  | tickerStop
  | unsubscribeExec
  | unsubscribeExit
  | monitorStop
  | registryClear
  | waitGroupDone
  | stopReturns
deriving DecidableEq, Repr

/-- Deferred cleanup sequence of the PreStart goroutine, in source
order. -/
def loopCleanup : List ShutdownAction :=
  [.tickerStop, .unsubscribeExec, .unsubscribeExit, .monitorStop,
   .registryClear, .waitGroupDone]

/-- Trace of method Stop: close(done), then the goroutine completes
its in-flight reconciliation iterations (syncsInFlight of them, zero
or one in any real run), observes the done signal and runs the
deferred cleanup; wg.Wait then lets Stop return. -/
def stopTrace (syncsInFlight : Nat) : List ShutdownAction :=
  .signalDone :: (List.replicate syncsInFlight .runSync ++ loopCleanup ++ [.stopReturns])

/-- Operation on the binary-identity registry restricted to one
identity, together with the outcome of the first-registration
callback when that operation triggers it. -/
inductive RegOp
  | register (pid : Nat) (cbOk : Bool)
  | unregister (pid : Nat)
deriving DecidableEq, Repr

/-- Modelled from the spec: the per-identity transition function of
utils.FileRegistry (whose implementation lies outside the sampled
sources). The state is the set of interested PIDs of one identity; an
empty set means no registry entry exists. Register on an absent entry
invokes the first-registration callback and creates the entry only on
callback success; Register on an existing entry is a duplicate when
the PID is already a member and an onAlreadyTracked addition
otherwise; Unregister removes a member PID and, when the set becomes
empty, invokes the last-unregistration callback and deletes the
entry. The result carries the new state and how many times each
callback was invoked by this operation. -/
def regStep (s : Finset Nat) : RegOp → Finset Nat × Nat × Nat
  | .register pid cbOk =>
    if s = ∅ then
      if cbOk then ({pid}, 1, 0) else (∅, 1, 0)
    else if pid ∈ s then (s, 0, 0)
    else (insert pid s, 0, 0)
  | .unregister pid =>
    if pid ∈ s then
      if s.erase pid = ∅ then (∅, 0, 1) else (s.erase pid, 0, 0)
    else (s, 0, 0)

/-- Aggregate observation of a registry run: final interested-PID set,
total first-registration and last-unregistration callback invocations,
and the number of transitions of the set from empty to non-empty and
from non-empty to empty. -/
structure RegRunStats where
  state : Finset Nat
  firstRegCount : Nat
  lastUnregCount : Nat
  upTransitions : Nat
  downTransitions : Nat

/-- Execution of a sequence of registry operations on one identity
from a given interested-PID set, accumulating callback invocations and
set transitions. -/
def regRun (s : Finset Nat) : List RegOp → RegRunStats
  | [] =>
    { state := s, firstRegCount := 0, lastUnregCount := 0
      upTransitions := 0, downTransitions := 0 }
  | op :: ops =>
    let step := regStep s op
    let rest := regRun step.1 ops
    { state := rest.state
      firstRegCount := step.2.1 + rest.firstRegCount
      lastUnregCount := step.2.2 + rest.lastUnregCount
      upTransitions := (if s = ∅ ∧ step.1 ≠ ∅ then 1 else 0) + rest.upTransitions
      downTransitions := (if s ≠ ∅ ∧ step.1 = ∅ then 1 else 0) + rest.downTransitions }

/-- True when every register operation in the sequence has a
succeeding first-registration callback. -/
def allCbOk : List RegOp → Prop
  | [] => True
  | .register _ cbOk :: ops => cbOk = true ∧ allCbOk ops
  | .unregister _ :: ops => allCbOk ops

instance allCbOkDecidable : (ops : List RegOp) → Decidable (allCbOk ops)
  | [] => .isTrue trivial
  | .register _ cbOk :: ops =>
    match allCbOkDecidable ops with
    | .isTrue h =>
      if hc : cbOk = true then .isTrue ⟨hc, h⟩ else .isFalse (fun hh => hc hh.1)
    | .isFalse h => .isFalse (fun hh => h hh.2)
  | .unregister _ :: ops => allCbOkDecidable ops

/-- Hook environment in which every installer call succeeds. -/
def okHookEnv : HookEnv :=
  { addHookOk := fun _ => true, detachOk := fun _ => true }

/-- Sample inspection result: the three instrumented functions with
entry offsets and no recorded return locations. -/
def sampleResult : InspectResult :=
  { functions :=
      [(ReadGoTLSFunc, { entryLocation := 4096, returnLocations := [] }),
       (WriteGoTLSFunc, { entryLocation := 8192, returnLocations := [] }),
       (CloseGoTLSFunc, { entryLocation := 12288, returnLocations := [] })] }

/-- Hook environment in which only the read entry probe installs
successfully: the second AddHook call of the attach loop fails. -/
def failingHookEnv : HookEnv :=
  { addHookOk := fun pr => pr.probeId.ebpfFuncName == connReadProbe
    detachOk := fun _ => true }

/-- Sample registered binary. -/
def sampleFilePath : HookedFilePath :=
  { hostPath := "/usr/bin/server", id := { dev := 2049, inode := 131072 } }

/-- Coordinator state before any registration. -/
def emptyState : GoTLSState :=
  { offsetsMap := [], mgr := [], probeIDs := [], binNoSymbols := 0, binAnalysisAdds := 0 }

/-- Registration environment whose hook installation fails on the
second probe. -/
def sampleRegisterEnv : RegisterEnv :=
  { openOk := true, elfOk := true, inspect := .ok sampleResult
    putOk := true, hookEnv := failingHookEnv }

/-- Registration environment whose binary analysis fails with the
no-symbols error. -/
def noSymbolsEnv : RegisterEnv :=
  { openOk := true, elfOk := true, inspect := .error .noSymbols
    putOk := true, hookEnv := okHookEnv }

/-- Registration environment whose binary analysis fails with an
error other than no-symbols. -/
def otherInspectErrorEnv : RegisterEnv :=
  { openOk := true, elfOk := true, inspect := .error (.other "unsupported format")
    putOk := true, hookEnv := okHookEnv }

/-- Attach environment for the self-exclusion case. -/
def selfExcludedEnv : AttachEnv :=
  { goTLSExcludeSelf := true, selfPid := 42, procRoot := "/proc"
    readlink := fun _ => .ok "/usr/bin/server"
    isInternalProcess := fun _ => false
    register := fun _ _ => .ok () }

/-- Attach environment for the internal-process exclusion case. -/
def internalProcessEnv : AttachEnv :=
  { goTLSExcludeSelf := false, selfPid := 42, procRoot := "/proc"
    readlink := fun _ => .ok "/opt/datadog-agent/embedded/bin/system-probe"
    isInternalProcess := fun _ => true
    register := fun _ _ => .ok () }

/-- Attach environment in which the executable path of the process
cannot be resolved. -/
def readlinkFailEnv : AttachEnv :=
  { goTLSExcludeSelf := false, selfPid := 42, procRoot := "/proc"
    readlink := fun _ => .error "no such file or directory"
    isInternalProcess := fun _ => false
    register := fun _ _ => .ok () }

/-- Attach environment in which the registry reports the
duplicate-registration condition. -/
def duplicateEnv : AttachEnv :=
  { goTLSExcludeSelf := false, selfPid := 42, procRoot := "/proc"
    readlink := fun _ => .ok "/usr/bin/server"
    isInternalProcess := fun _ => false
    register := fun _ _ => .error .alreadyRegistered }

/-- First stored probe of the teardown example. -/
def teardownProbeA : ProbeIdentificationPair :=
  { ebpfFuncName := connReadProbe, uid := "2049:131072" }

/-- Second stored probe of the teardown example. -/
def teardownProbeB : ProbeIdentificationPair :=
  { ebpfFuncName := connWriteProbe, uid := "2049:131072" }

/-- Hook environment in which detaching the first stored probe fails
and detaching the second succeeds. -/
def teardownEnv : HookEnv :=
  { addHookOk := fun _ => true
    detachOk := fun p => p.ebpfFuncName == connWriteProbe }

/-- Coordinator state holding two installed hooks and their stored
probe identifiers. -/
def teardownState : GoTLSState :=
  { offsetsMap := [addInspectionKey sampleFilePath.id]
    mgr := [{ probeId := teardownProbeA, binaryPath := "/usr/bin/server", uprobeOffset := 4096 },
            { probeId := teardownProbeB, binaryPath := "/usr/bin/server", uprobeOffset := 8192 }]
    probeIDs := [teardownProbeA, teardownProbeB]
    binNoSymbols := 0, binAnalysisAdds := 1 }

/-- Sample operation sequence on one identity: two PIDs register, both
unregister, a third registers and unregisters. -/
def sampleRegOps : List RegOp :=
  [.register 1 true, .register 2 true, .unregister 1, .unregister 2,
   .register 3 true, .unregister 3]

/-- Claim C9: the key used by addInspectionResultToMap to Put an
analysis result and the key used by removeInspectionResultFromMap to
Delete it are computed identically as (device major, device minor,
inode) of the binary path identifier, so a Put followed by a Delete
for the same identity addresses the same lookup-table entry. -/
theorem put_delete_keys_agree (binID : PathIdentifier) (m : OffsetsMap) :
    addInspectionKey binID = removeInspectionKey binID ∧
    addInspectionKey binID ∉
      mapDelete (mapPut m (addInspectionKey binID)) (removeInspectionKey binID) := by
  refine ⟨rfl, ?_⟩
  intro hmem
  rw [mapDelete] at hmem
  have := List.of_mem_filter hmem
  simp [addInspectionKey, removeInspectionKey] at this

/-- Claim C6: for a PID excluded by policy, AttachPID returns the
respective policy error (ErrSelfExcluded for the agent own PID under
GoTLSExcludeSelf, ErrInternalDDogProcessRejected for an executable
path matched by the internal datadog-agent pattern) and never reaches
registry.Register. -/
theorem attachPID_policy_exclusion (env : AttachEnv) (pid : Nat) :
    (env.goTLSExcludeSelf = true → pid = env.selfPid →
      AttachPID env pid = .selfExcluded ∧
      (AttachPID env pid).callsRegister = false) ∧
    (∀ binPath : String,
      ¬ (env.goTLSExcludeSelf = true ∧ pid = env.selfPid) →
      env.readlink (exePath env.procRoot pid) = .ok binPath →
      env.isInternalProcess binPath = true →
      AttachPID env pid = .internalRejected ∧
      (AttachPID env pid).callsRegister = false) := by
  constructor
  · intro hex hpid
    have : AttachPID env pid = .selfExcluded := by
      simp [AttachPID, hex, hpid]
    exact ⟨this, by rw [this]; rfl⟩
  · intro binPath hnself hrl hint
    have : AttachPID env pid = .internalRejected := by
      simp [AttachPID, hnself, hrl, hint]
    exact ⟨this, by rw [this]; rfl⟩

/-- Witness for claim C6 at concrete inputs: PID 42 is the agent PID
and is self-excluded; PID 7 resolves to an internal datadog-agent
binary and is rejected. -/
theorem attachPID_policy_exclusion_witness :
    AttachPID selfExcludedEnv 42 = .selfExcluded ∧
    AttachPID internalProcessEnv 7 = .internalRejected :=
  ⟨((attachPID_policy_exclusion selfExcludedEnv 42).1 rfl rfl).1,
   ((attachPID_policy_exclusion internalProcessEnv 7).2
      "/opt/datadog-agent/embedded/bin/system-probe" (by decide) rfl rfl).1⟩

/-- Claim C10: when the readlink of the proc exe entry fails, AttachPID
returns that resolution error and never reaches registry.Register. -/
theorem attachPID_readlink_failure (env : AttachEnv) (pid : Nat) (msg : String)
    (hnself : ¬ (env.goTLSExcludeSelf = true ∧ pid = env.selfPid))
    (hrl : env.readlink (exePath env.procRoot pid) = .error msg) :
    AttachPID env pid = .readlinkFailed msg ∧
    (AttachPID env pid).callsRegister = false := by
  have : AttachPID env pid = .readlinkFailed msg := by
    simp [AttachPID, hnself, hrl]
  exact ⟨this, by rw [this]; rfl⟩

/-- Witness for claim C10 at a concrete input: the readlink for PID 7
fails because the process already exited. -/
theorem attachPID_readlink_failure_witness :
    AttachPID readlinkFailEnv 7 = .readlinkFailed "no such file or directory" :=
  (attachPID_readlink_failure readlinkFailEnv 7 "no such file or directory"
    (by decide) rfl).1

/-- Claim C8: when AttachPID reports the already-registered condition
(utils.ErrPathIsAlreadyRegistered), the public GoTLSAttachPID entry
point returns nil, treating the duplicate process-start notification
as benign. -/
theorem gotls_attach_duplicate_benign (env : AttachEnv) (pid : Nat)
    (h : AttachPID env pid = .registerCalled (.error .alreadyRegistered)) :
    GoTLSAttachPID true env pid = none := by
  simp [GoTLSAttachPID, h, AttachOutcome.toError]

/-- Witness for claim C8 at a concrete input: the registry reports the
duplicate condition for PID 7 and GoTLSAttachPID returns success. -/
theorem gotls_attach_duplicate_benign_witness :
    GoTLSAttachPID true duplicateEnv 7 = none :=
  gotls_attach_duplicate_benign duplicateEnv 7 (by decide)

/-- Claim C7: when the binary analysis of the registration callback
fails, the no-symbols counter is incremented exactly once for the
distinguishable no-symbols error and left unchanged for any other
analysis error, a non-nil error is returned either way, and neither
the offsets map nor the installed hooks nor the stored probe
identifiers change. -/
theorem register_inspect_failure_counts_no_symbols
    (env : RegisterEnv) (fp : HookedFilePath) (st : GoTLSState) (e : InspectError)
    (hOpen : env.openOk = true) (hElf : env.elfOk = true)
    (hIns : env.inspect = .error e) :
    (registerCB env fp st).2 = .error (.inspectFailed e) ∧
    (registerCB env fp st).1.binNoSymbols =
      st.binNoSymbols + (if e = .noSymbols then 1 else 0) ∧
    (registerCB env fp st).1.offsetsMap = st.offsetsMap ∧
    (registerCB env fp st).1.mgr = st.mgr ∧
    (registerCB env fp st).1.probeIDs = st.probeIDs := by
  simp [registerCB, hOpen, hElf, hIns]

/-- Witness for claim C7 at concrete inputs: a no-symbols failure
bumps the counter from 0 to 1, a different analysis failure leaves it
at 0; both return errors. -/
theorem register_inspect_failure_counts_no_symbols_witness :
    ((registerCB noSymbolsEnv sampleFilePath emptyState).2 =
       .error (.inspectFailed .noSymbols) ∧
     (registerCB noSymbolsEnv sampleFilePath emptyState).1.binNoSymbols = 0 + 1) ∧
    ((registerCB otherInspectErrorEnv sampleFilePath emptyState).2 =
       .error (.inspectFailed (.other "unsupported format")) ∧
     (registerCB otherInspectErrorEnv sampleFilePath emptyState).1.binNoSymbols = 0 + 0) := by
  have h1 := register_inspect_failure_counts_no_symbols noSymbolsEnv sampleFilePath
    emptyState .noSymbols rfl rfl rfl
  have h2 := register_inspect_failure_counts_no_symbols otherInspectErrorEnv sampleFilePath
    emptyState (.other "unsupported format") rfl rfl rfl
  refine ⟨⟨h1.1, ?_⟩, ⟨h2.1, ?_⟩⟩
  · simpa using h1.2.1
  · simpa using h2.2.1

/-- Counterexample to claim C1: in a registration whose hook
installation fails on the second AddHook call, the callback returns
the error and the lookup-table entry is absent, yet one hook (the read
entry probe installed by the first AddHook call) remains installed for
the binary — not zero as the claim states. -/
theorem attach_failure_leaves_hook_installed :
    (registerCB sampleRegisterEnv sampleFilePath emptyState).2 =
      .error (.attachFailed "could not add hook") ∧
    (registerCB sampleRegisterEnv sampleFilePath emptyState).1.offsetsMap = [] ∧
    (registerCB sampleRegisterEnv sampleFilePath emptyState).1.mgr =
      [{ probeId := { ebpfFuncName := connReadProbe, uid := getUID sampleFilePath.id }
         binaryPath := sampleFilePath.hostPath
         uprobeOffset := 4096 }] ∧
    (registerCB sampleRegisterEnv sampleFilePath emptyState).1.mgr.length = 1 :=
  ⟨rfl, rfl, rfl, rfl⟩


/-- Lemma: a successful AddHook call appends exactly the new probe. -/
theorem addHook_ok {env : HookEnv} {mgr : MgrState} {p : Probe} {mgr1 : MgrState}
    (h : addHook env mgr p = .ok mgr1) : mgr1 = mgr ++ [p] := by
  rw [addHook] at h
  split at h
  · exact (Except.ok.inj h).symm
  · exact absurd h (by simp)

/-- Lemma: the return-probe loop of attachHooks only appends to the
installed-hook state of the manager. -/
theorem attachReturnProbes_extends (env : HookEnv) (retInfo uid binPath : String) :
    ∀ (locs : List (Nat × Nat)) (mgr : MgrState) (acc : List ProbeIdentificationPair),
    ∃ added, (attachReturnProbes env retInfo uid binPath locs mgr acc).1 = mgr ++ added := by
  intro locs
  induction locs with
  | nil => intro mgr acc; exact ⟨[], by simp [attachReturnProbes]⟩
  | cons x rest ih =>
    intro mgr acc
    obtain ⟨i, offset⟩ := x
    simp only [attachReturnProbes]
    split
    · exact ⟨[], by simp⟩
    · next mgr1 heq =>
      obtain ⟨added, hadded⟩ := ih mgr1 _
      exact ⟨_, by rw [hadded, addHook_ok heq, List.append_assoc]⟩

/-- Lemma: the main loop of attachHooks only appends to the
installed-hook state of the manager. -/
theorem attachHooksLoop_extends (env : HookEnv) (result : InspectResult)
    (binPath uid : String) :
    ∀ (entries : List (String × UprobesInfo)) (mgr : MgrState)
      (acc : List ProbeIdentificationPair),
    ∃ added, (attachHooksLoop env result binPath uid entries mgr acc).1 = mgr ++ added := by
  intro entries
  induction entries with
  | nil => intro mgr acc; exact ⟨[], by simp [attachHooksLoop]⟩
  | cons x rest ih =>
    intro mgr acc
    obtain ⟨function, uprobes⟩ := x
    simp only [attachHooksLoop]
    split
    · split
      · exact ⟨[], by simp⟩
      · split
        · next mgr1 e heq =>
          obtain ⟨added1, hadded1⟩ := attachReturnProbes_extends env uprobes.returnInfo uid
            binPath (result.funcData function).returnLocations.enum mgr acc
          rw [heq] at hadded1
          exact ⟨added1, hadded1⟩
        · next mgr1 acc1 heq =>
          obtain ⟨added1, hadded1⟩ := attachReturnProbes_extends env uprobes.returnInfo uid
            binPath (result.funcData function).returnLocations.enum mgr acc
          rw [heq] at hadded1
          simp only [] at hadded1
          split
          · split
            · exact ⟨added1, hadded1⟩
            · next mgr2 heq2 =>
              obtain ⟨added2, hadded2⟩ := ih mgr2
                (acc1 ++ [{ ebpfFuncName := uprobes.functionInfo, uid := uid }])
              refine ⟨added1 ++ [{ probeId := { ebpfFuncName := uprobes.functionInfo, uid := uid },
                                    binaryPath := binPath,
                                    uprobeOffset := (result.funcData function).entryLocation }] ++ added2, ?_⟩
              rw [hadded2, addHook_ok heq2, hadded1]
              simp [List.append_assoc]
          · obtain ⟨added2, hadded2⟩ := ih mgr1 acc1
            exact ⟨added1 ++ added2, by rw [hadded2, hadded1, List.append_assoc]⟩
    · split
      · split
        · exact ⟨[], by simp⟩
        · next mgr1 heq =>
          obtain ⟨added2, hadded2⟩ := ih mgr1
            (acc ++ [{ ebpfFuncName := uprobes.functionInfo, uid := uid }])
          refine ⟨[{ probeId := { ebpfFuncName := uprobes.functionInfo, uid := uid },
                      binaryPath := binPath,
                      uprobeOffset := (result.funcData function).entryLocation }] ++ added2, ?_⟩
          rw [hadded2, addHook_ok heq]
          simp [List.append_assoc]
      · exact ih mgr acc

/-- Claim C1 (amended): when hook installation fails part-way through
the hook targets, the registration callback removes the lookup-table
entry and returns the error, and it leaves the shared probe-identifier
slice untouched; but the hooks already installed earlier in the same
call are not removed — the manager keeps exactly the state the failed
attach loop reached, which extends the previous state. -/
theorem attach_failure_rolls_back_map_only
    (env : RegisterEnv) (fp : HookedFilePath) (st : GoTLSState)
    (res : InspectResult) (msg : String)
    (hOpen : env.openOk = true) (hElf : env.elfOk = true)
    (hIns : env.inspect = .ok res) (hPut : env.putOk = true)
    (hAtt : (attachHooks env.hookEnv res fp.hostPath fp.id st.mgr).2 = .error msg) :
    (registerCB env fp st).2 = .error (.attachFailed msg) ∧
    removeInspectionKey fp.id ∉ (registerCB env fp st).1.offsetsMap ∧
    (registerCB env fp st).1.mgr = (attachHooks env.hookEnv res fp.hostPath fp.id st.mgr).1 ∧
    (∃ added, (registerCB env fp st).1.mgr = st.mgr ++ added) ∧
    (registerCB env fp st).1.probeIDs = st.probeIDs := by
  rcases hA : attachHooks env.hookEnv res fp.hostPath fp.id st.mgr with ⟨mgr1, r⟩
  rw [hA] at hAtt
  simp only [] at hAtt
  subst hAtt
  have hreg : registerCB env fp st =
      ({ st with
          offsetsMap := removeInspectionResultFromMap
            (mapPut st.offsetsMap (addInspectionKey fp.id)) fp.id
          mgr := mgr1 },
       .error (.attachFailed msg)) := by
    simp [registerCB, hOpen, hElf, hIns, addInspectionResultToMap, hPut, hA]
  obtain ⟨added, hadded⟩ := attachHooksLoop_extends env.hookEnv res fp.hostPath
    (getUID fp.id) functionToProbes st.mgr []
  rw [show attachHooksLoop env.hookEnv res fp.hostPath (getUID fp.id) functionToProbes st.mgr [] =
        attachHooks env.hookEnv res fp.hostPath fp.id st.mgr from rfl, hA] at hadded
  simp only [] at hadded
  refine ⟨by rw [hreg], ?_, by rw [hreg], ⟨added, by rw [hreg]; exact hadded⟩, by rw [hreg]⟩
  rw [hreg]
  intro hmem
  have := List.of_mem_filter hmem
  simp [addInspectionKey, removeInspectionKey] at this

/-- Witness for the amended claim C1 at the concrete failing
registration: the error is returned, the lookup-table entry is absent,
and the read entry probe installed before the failure remains. -/
theorem attach_failure_rolls_back_map_only_witness :
    (registerCB sampleRegisterEnv sampleFilePath emptyState).2 =
      .error (.attachFailed "could not add hook") ∧
    removeInspectionKey sampleFilePath.id ∉
      (registerCB sampleRegisterEnv sampleFilePath emptyState).1.offsetsMap ∧
    (∃ added, (registerCB sampleRegisterEnv sampleFilePath emptyState).1.mgr =
      emptyState.mgr ++ added) := by
  have h := attach_failure_rolls_back_map_only sampleRegisterEnv sampleFilePath emptyState
    sampleResult "could not add hook" rfl rfl rfl rfl (by decide)
  exact ⟨h.1, h.2.1, h.2.2.2.1⟩

/-- Lemma: the teardown loop never adds hooks: every probe still
installed after detachAll was installed before. -/
theorem mem_of_mem_detachAll (env : HookEnv) :
    ∀ (l : List ProbeIdentificationPair) (mgr : MgrState) (pr : Probe),
    pr ∈ detachAll env l mgr → pr ∈ mgr := by
  intro l
  induction l with
  | nil => intro mgr pr h; simpa [detachAll] using h
  | cons p rest ih =>
    intro mgr pr h
    rw [detachAll] at h
    by_cases hok : env.detachOk p = true
    · rw [if_pos hok] at h
      exact List.mem_of_mem_filter (ih _ pr h)
    · rw [if_neg hok] at h
      exact ih _ pr h

/-- Lemma: a successful DetachHook call removes every probe with the
given identifier, and later failed calls do not bring it back. -/
theorem detachAll_removes (env : HookEnv) :
    ∀ (l : List ProbeIdentificationPair) (mgr : MgrState)
      (p : ProbeIdentificationPair),
    p ∈ l → env.detachOk p = true →
    ∀ pr ∈ detachAll env l mgr, pr.probeId ≠ p := by
  intro l
  induction l with
  | nil => intro mgr p hp; exact absurd hp (List.not_mem_nil p)
  | cons q rest ih =>
    intro mgr p hp hok pr hpr
    rw [detachAll] at hpr
    rcases List.mem_cons.mp hp with hpq | hptail
    · subst hpq
      rw [if_pos hok] at hpr
      have hmem := mem_of_mem_detachAll env rest _ pr hpr
      have := List.mem_filter.mp hmem
      simpa using this.2
    · by_cases hqok : env.detachOk q = true
      · rw [if_pos hqok] at hpr
        exact ih _ p hptail hok pr hpr
      · rw [if_neg hqok] at hpr
        exact ih _ p hptail hok pr hpr

/-- Claim C5: the unregistration callback for an identity with stored
hooks removes the lookup-table entry first, then attempts to detach
every stored hook — a failed individual removal is only logged and
does not stop the remaining removals — and it never returns an error
because of detach failures. -/
theorem unregister_best_effort (env : HookEnv) (path : HookedFilePath) (st : GoTLSState)
    (h : st.probeIDs ≠ []) :
    (unregisterCB env path st).2.2 = .ok () ∧
    (unregisterCB env path st).2.1 =
      .removeMapEntry (removeInspectionKey path.id) ::
        st.probeIDs.map (fun p => .detachHook p (env.detachOk p)) ∧
    removeInspectionKey path.id ∉ (unregisterCB env path st).1.offsetsMap ∧
    (∀ p ∈ st.probeIDs, env.detachOk p = true →
      ∀ pr ∈ (unregisterCB env path st).1.mgr, pr.probeId ≠ p) := by
  have hcb : unregisterCB env path st =
      ({ st with
          offsetsMap := removeInspectionResultFromMap st.offsetsMap path.id
          mgr := detachAll env st.probeIDs st.mgr },
       .removeMapEntry (removeInspectionKey path.id) ::
         st.probeIDs.map (fun p => .detachHook p (env.detachOk p)),
       .ok ()) := by
    rw [unregisterCB, if_neg h]
  refine ⟨by rw [hcb], by rw [hcb], ?_, ?_⟩
  · rw [hcb]
    intro hmem
    have := List.of_mem_filter hmem
    simp [addInspectionKey, removeInspectionKey] at this
  · intro p hp hok pr hpr
    rw [hcb] at hpr
    exact detachAll_removes env st.probeIDs st.mgr p hp hok pr hpr

/-- Witness for claim C5 at the concrete teardown state: the callback
returns success, the lookup-table entry is gone, and the second hook
is removed even though detaching the first one failed. -/
theorem unregister_best_effort_witness :
    (unregisterCB teardownEnv sampleFilePath teardownState).2.2 = .ok () ∧
    removeInspectionKey sampleFilePath.id ∉
      (unregisterCB teardownEnv sampleFilePath teardownState).1.offsetsMap := by
  have h := unregister_best_effort teardownEnv sampleFilePath teardownState (by decide)
  exact ⟨h.1, h.2.2.1⟩

/-- Lemma: the enumeration loop of sync ends with exactly the
snapshot candidates that were never seen among the live PIDs. -/
theorem syncLoop_candidates :
    ∀ (l : List Nat) (cands : Finset Nat),
    (syncLoop l cands).1 = cands \ l.toFinset := by
  intro l
  induction l with
  | nil => intro cands; simp [syncLoop]
  | cons p rest ih =>
    intro cands
    rw [syncLoop]
    by_cases hp : p ∈ cands
    · rw [if_pos hp, ih]
      ext x
      simp only [Finset.mem_sdiff, Finset.mem_erase, List.toFinset_cons, Finset.mem_insert]
      constructor
      · rintro ⟨⟨hxp, hxc⟩, hxr⟩
        exact ⟨hxc, fun hx => hx.elim hxp hxr⟩
      · rintro ⟨hxc, hx⟩
        exact ⟨⟨fun hxp => hx (Or.inl hxp), hxc⟩, fun hxr => hx (Or.inr hxr)⟩
    · rw [if_neg hp]
      simp only []
      rw [ih]
      ext x
      simp only [Finset.mem_sdiff, List.toFinset_cons, Finset.mem_insert]
      constructor
      · rintro ⟨hxc, hxr⟩
        refine ⟨hxc, fun hx => ?_⟩
        rcases hx with hxp | hxr2
        · exact hp (hxp ▸ hxc)
        · exact hxr hxr2
      · rintro ⟨hxc, hx⟩
        exact ⟨hxc, fun hxr => hx (Or.inr hxr)⟩

/-- Lemma: with distinct live PIDs, the enumeration loop passes to
AttachPID exactly the live PIDs outside the candidate snapshot, in
enumeration order. -/
theorem syncLoop_attaches :
    ∀ (l : List Nat) (cands : Finset Nat), l.Nodup →
    (syncLoop l cands).2 = l.filter (fun p => decide (p ∉ cands)) := by
  intro l
  induction l with
  | nil => intro cands _; simp [syncLoop]
  | cons p rest ih =>
    intro cands hnd
    obtain ⟨hp_rest, hnd_rest⟩ := List.nodup_cons.mp hnd
    rw [syncLoop]
    by_cases hp : p ∈ cands
    · rw [if_pos hp, List.filter_cons]
      have hdp : decide (p ∉ cands) = false := by simpa using hp
      rw [hdp]
      simp only [Bool.false_eq_true, if_false]
      rw [ih (cands.erase p) hnd_rest]
      apply List.filter_congr
      intro q hq
      have hqp : q ≠ p := fun hqp => hp_rest (hqp ▸ hq)
      simp [Finset.mem_erase, hqp]
    · rw [if_neg hp]
      simp only []
      rw [List.filter_cons]
      have hdp : decide (p ∉ cands) = true := by simpa using hp
      rw [hdp]
      simp only [if_true]
      rw [ih cands hnd_rest]

/-- Claim C3: one reconciliation sweep is mark-and-sweep — with the
registered PIDs snapshotted as candidates, every live PID already in
the candidates is merely removed from them, AttachPID is called
exactly on the live PIDs outside the snapshot (in enumeration order),
and DetachPID is called exactly once for each snapshot PID that was
not seen alive. -/
theorem sync_mark_and_sweep (registered : Finset Nat) (livePids : List Nat)
    (h : livePids.Nodup) :
    (sync registered livePids).attaches =
      livePids.filter (fun p => decide (p ∉ registered)) ∧
    (sync registered livePids).detaches = registered \ livePids.toFinset := by
  constructor
  · show (syncLoop livePids registered).2 = _
    exact syncLoop_attaches livePids registered h
  · show (syncLoop livePids registered).1 = _
    exact syncLoop_candidates livePids registered

/-- Witness for claim C3 at concrete inputs: PIDs 1 and 2 registered,
PIDs 2 and 3 alive: PID 3 is attached, PID 1 is detached. -/
theorem sync_mark_and_sweep_witness :
    (sync {1, 2} [2, 3]).attaches = [3] ∧ (sync {1, 2} [2, 3]).detaches = {1} := by
  have h := sync_mark_and_sweep {1, 2} [2, 3] (by decide)
  refine ⟨?_, ?_⟩
  · rw [h.1]; decide
  · rw [h.2]; decide

/-- Lemma: every in-flight reconciliation iteration of the event loop
precedes the Registry.Clear action in the shutdown trace. -/
theorem stopTrace_takeWhile_runSync (n : Nat) :
    ((List.replicate n ShutdownAction.runSync ++ loopCleanup ++
        [ShutdownAction.stopReturns]).takeWhile
      (fun a => a ≠ ShutdownAction.registryClear)).count .runSync = n := by
  induction n with
  | zero => decide
  | succ n ih =>
    rw [List.replicate_succ]
    simp only [List.cons_append, List.takeWhile_cons]
    simp only [show (decide (ShutdownAction.runSync ≠ ShutdownAction.registryClear)) = true
      from rfl, if_true, List.count_cons]
    simp [ih]
    decide

/-- Claim C4: in the shutdown protocol, the done-channel signal comes
first, any in-flight reconciliation work completes before
Registry.Clear runs, the unsubscriptions from the process start and
exit notifications happen exactly once and before Registry.Clear,
Clear runs exactly once, and Stop returns last — after Clear — for any
number of in-flight iterations. -/
theorem stop_shutdown_order (n : Nat) :
    List.Sublist [ShutdownAction.signalDone, .unsubscribeExec, .unsubscribeExit,
      .registryClear, .stopReturns] (stopTrace n) ∧
    (stopTrace n).count .unsubscribeExec = 1 ∧
    (stopTrace n).count .unsubscribeExit = 1 ∧
    (stopTrace n).count .registryClear = 1 ∧
    (stopTrace n).count .stopReturns = 1 ∧
    ((stopTrace n).takeWhile (fun a => a ≠ .registryClear)).count .runSync = n ∧
    (stopTrace n).getLast? = some .stopReturns := by
  refine ⟨?_, ?_, ?_, ?_, ?_, ?_, ?_⟩
  · rw [stopTrace]
    refine List.Sublist.cons₂ _ ?_
    rw [List.append_assoc]
    refine List.Sublist.trans ?_ (List.sublist_append_right (List.replicate n .runSync)
      (loopCleanup ++ [ShutdownAction.stopReturns]))
    decide
  · simp [stopTrace, loopCleanup, List.count_append, List.count_cons, List.count_replicate]
  · simp [stopTrace, loopCleanup, List.count_append, List.count_cons, List.count_replicate]
  · simp [stopTrace, loopCleanup, List.count_append, List.count_cons, List.count_replicate]
  · simp [stopTrace, loopCleanup, List.count_append, List.count_cons, List.count_replicate]
  · rw [stopTrace]
    rw [List.takeWhile_cons]
    simp only [show (decide (ShutdownAction.signalDone ≠ ShutdownAction.registryClear)) = true
      from rfl, if_true, List.count_cons]
    have h := stopTrace_takeWhile_runSync n
    simp at h ⊢
    omega
  · have hsplit : stopTrace n =
        (ShutdownAction.signalDone :: (List.replicate n ShutdownAction.runSync ++
          loopCleanup)) ++ [ShutdownAction.stopReturns] := by
      simp [stopTrace, List.append_assoc]
    rw [hsplit, List.getLast?_concat]

/-- Lemma: a register operation with a succeeding callback fires the
first-registration callback exactly when the interested-PID set
transitions from empty to non-empty. -/
theorem regStep_firstReg_register (s : Finset Nat) (pid : Nat) :
    (regStep s (.register pid true)).2.1 =
      (if s = ∅ ∧ (regStep s (.register pid true)).1 ≠ ∅ then 1 else 0) := by
  by_cases hs : s = ∅
  · simp [regStep, hs]
  · by_cases hm : pid ∈ s <;> simp [regStep, hs, hm]

/-- Lemma: an unregister operation never fires the first-registration
callback, and never produces an empty-to-non-empty transition. -/
theorem regStep_firstReg_unregister (s : Finset Nat) (pid : Nat) :
    (regStep s (.unregister pid)).2.1 =
      (if s = ∅ ∧ (regStep s (.unregister pid)).1 ≠ ∅ then 1 else 0) := by
  by_cases hm : pid ∈ s
  · have hs : s ≠ ∅ := Finset.ne_empty_of_mem hm
    by_cases he : s.erase pid = ∅ <;> simp [regStep, hm, he, hs]
  · by_cases hs : s = ∅ <;> simp [regStep, hm, hs]

/-- Lemma: any operation fires the last-unregistration callback
exactly when the interested-PID set transitions from non-empty to
empty. -/
theorem regStep_lastUnreg (s : Finset Nat) (op : RegOp) :
    (regStep s op).2.2 =
      (if s ≠ ∅ ∧ (regStep s op).1 = ∅ then 1 else 0) := by
  cases op with
  | register pid cbOk =>
    by_cases hs : s = ∅
    · cases cbOk <;> simp [regStep, hs]
    · by_cases hm : pid ∈ s
      · simp [regStep, hs, hm]
      · simp [regStep, hs, hm, Finset.insert_ne_empty]
  | unregister pid =>
    by_cases hm : pid ∈ s
    · have hs : s ≠ ∅ := Finset.ne_empty_of_mem hm
      by_cases he : s.erase pid = ∅ <;> simp [regStep, hm, he, hs]
    · by_cases hs : s = ∅ <;> simp [regStep, hm, hs]

/-- Lemma: over any operation sequence whose registration callbacks
all succeed, the total number of first-registration callback
invocations equals the number of empty-to-non-empty transitions. -/
theorem regRun_firstReg (ops : List RegOp) :
    ∀ s : Finset Nat, allCbOk ops →
    (regRun s ops).firstRegCount = (regRun s ops).upTransitions := by
  induction ops with
  | nil => intro s _; rfl
  | cons op rest ih =>
    intro s hok
    have hok_rest : allCbOk rest := by
      cases op with
      | register pid cbOk => exact hok.2
      | unregister pid => exact hok
    have hstep : (regStep s op).2.1 =
        (if s = ∅ ∧ (regStep s op).1 ≠ ∅ then 1 else 0) := by
      cases op with
      | register pid cbOk =>
        have hcb : cbOk = true := hok.1
        subst hcb
        exact regStep_firstReg_register s pid
      | unregister pid => exact regStep_firstReg_unregister s pid
    simp only [regRun]
    rw [hstep, ih (regStep s op).1 hok_rest]

/-- Lemma: over any operation sequence, the total number of
last-unregistration callback invocations equals the number of
non-empty-to-empty transitions. -/
theorem regRun_lastUnreg (ops : List RegOp) :
    ∀ s : Finset Nat,
    (regRun s ops).lastUnregCount = (regRun s ops).downTransitions := by
  induction ops with
  | nil => intro s; rfl
  | cons op rest ih =>
    intro s
    simp only [regRun]
    rw [regStep_lastUnreg s op, ih (regStep s op).1]

/-- Claim C2 (registry modelled from the spec): for every sequence of
Register and Unregister calls on one identity starting from the
untracked state, with succeeding registration callbacks, the
first-registration callback is invoked exactly once per transition of
the interested-PID set from empty to non-empty and the
last-unregistration callback exactly once per transition from
non-empty back to empty, for any interleaving and any number of
distinct PIDs. -/
theorem registry_callback_transition_counts (ops : List RegOp) (h : allCbOk ops) :
    (regRun ∅ ops).firstRegCount = (regRun ∅ ops).upTransitions ∧
    (regRun ∅ ops).lastUnregCount = (regRun ∅ ops).downTransitions :=
  ⟨regRun_firstReg ops ∅ h, regRun_lastUnreg ops ∅⟩

/-- Witness for claim C2 at a concrete operation sequence with two
up-transitions and two down-transitions across three PIDs. -/
theorem registry_callback_transition_counts_witness :
    (regRun ∅ sampleRegOps).firstRegCount = (regRun ∅ sampleRegOps).upTransitions ∧
    (regRun ∅ sampleRegOps).lastUnregCount = (regRun ∅ sampleRegOps).downTransitions :=
  registry_callback_transition_counts sampleRegOps (by decide)
